import Mathlib

/- Shallow embedding of src/jwreftools/nircam/nircam_grism_reffiles.py.

   Conventions:
   * Python strings are Lean `String`s (the aXe configuration files are ASCII).
   * Python int/float values are modelled as rationals `ℚ` (exact arithmetic;
     the numbers appearing in the verified claims are exactly representable).
   * Python dicts are association lists in insertion order; assigning to an
     existing key overwrites in place, as in CPython.
   * Fallible code returns `Except PyErr`; each `PyErr` constructor names the
     Python exception that the source would raise at the same point.
   * File input is external: `dict_from_file` is modelled over the list of
     lines of the file; the asdf serialization step is external and the
     artifact is modelled as the data handed to the writer. -/

/-- Python regex class `\s` over ASCII: space, tab, newline, carriage return,
vertical tab, form feed. -/
def pyIsSpace (c : Char) : Bool :=
  c = ' ' || c = '\t' || c = '\n' || c = '\r' || c = '\x0b' || c = '\x0c'

/-- Python `str.strip()`: drop leading and trailing whitespace. -/
def pyStrip (s : String) : String :=
  String.mk (((s.toList.dropWhile pyIsSpace).reverse.dropWhile pyIsSpace).reverse)

/-- The regex `^[a-zA-Z]` (`letters` in dict_from_file, applied with
re.match): the first character is an ASCII letter. -/
def startsWithLetter (s : String) : Bool :=
  match s.toList with
  | [] => false
  | c :: _ => c.isAlpha

/-- The regex `^\s*$` (`empty` in dict_from_file): the line is blank
(possibly whitespace only). -/
def pyIsBlank (s : String) : Bool := s.toList.all pyIsSpace

/-- The regex `^(?:[+\-])?(?:\d*)(?:\.)?(?:\d*)?(?:[eE][+\-]?\d*$)?`
(`numbers` in dict_from_file, applied with re.fullmatch): optional sign,
digit run, optional dot, digit run, optional exponent part with optional
sign and digit run.  Every component is optional, so degenerate tokens such
as "", ".", "+" or "1e" also fullmatch. -/
def numbersFullmatch (s : String) : Bool :=
  let l0 := s.toList
  let l1 := match l0 with
    | c :: rest => if c = '+' || c = '-' then rest else c :: rest
    | [] => []
  let l2 := l1.dropWhile Char.isDigit
  let l3 := match l2 with
    | '.' :: rest => rest
    | _ => l2
  let l4 := l3.dropWhile Char.isDigit
  match l4 with
  | [] => true
  | c :: rest =>
    if c = 'e' || c = 'E' then
      let rest2 := match rest with
        | c2 :: r2 => if c2 = '+' || c2 = '-' then r2 else c2 :: r2
        | [] => []
      (rest2.dropWhile Char.isDigit).isEmpty
    else false

/-- Value of a run of decimal digit characters. -/
def digitsToNat (l : List Char) : Nat :=
  l.foldl (fun n c => 10 * n + (c.toNat - '0'.toNat)) 0

/-- Python `eval` on a value token (dict_from_file evaluates tokens that the
`numbers` regex accepted).  Returns the numeric value when the token is a
valid Python numeric literal with an optional unary sign; returns `none`
when eval would raise (SyntaxError on "", ".", "+", "1e", "05";
NameError on "e5").  int and float results are both rationals here. -/
def pyEvalNum (s : String) : Option ℚ :=
  let l0 := s.toList
  let sgn : ℚ := match l0 with
    | '-' :: _ => -1
    | _ => 1
  let l1 := match l0 with
    | '+' :: rest => rest
    | '-' :: rest => rest
    | _ => l0
  let ipart := l1.takeWhile Char.isDigit
  let l2 := l1.dropWhile Char.isDigit
  let hasDot := match l2 with
    | '.' :: _ => true
    | _ => false
  let l3 := match l2 with
    | '.' :: rest => rest
    | _ => l2
  let fpart := l3.takeWhile Char.isDigit
  let l4 := l3.dropWhile Char.isDigit
  let mant : ℚ := sgn * (digitsToNat (ipart ++ fpart) : ℚ) / (10 : ℚ) ^ fpart.length
  let mantOK := !ipart.isEmpty || (hasDot && !fpart.isEmpty)
  match l4 with
  | [] =>
    if !mantOK then none
    else if !hasDot && decide (2 ≤ ipart.length) && decide (ipart.head? = some '0')
          && !(ipart.all (· == '0')) then
      -- a decimal integer literal may not have leading zeros in Python 3
      none
    else some mant
  | c :: rest =>
    if c = 'e' || c = 'E' then
      let negExp := match rest with
        | '-' :: _ => true
        | _ => false
      let rest2 := match rest with
        | '+' :: r => r
        | '-' :: r => r
        | _ => rest
      let epart := rest2.takeWhile Char.isDigit
      if !(rest2.dropWhile Char.isDigit).isEmpty || epart.isEmpty || !mantOK then none
      else some (if negExp then mant / (10 : ℚ) ^ digitsToNat epart
                 else mant * (10 : ℚ) ^ digitsToNat epart)
    else none

/-- Values stored in the configuration dictionaries: numbers, strings, and
the 2-tuples produced for min/max lines and merged range pairs. -/
inductive CVal where
  | num : ℚ → CVal
  | str : String → CVal
  | pair : CVal → CVal → CVal
deriving DecidableEq

/-- The Python exceptions the source can raise, by raise site. -/
inductive PyErr where
  /-- ValueError "Min/max values expected for {key}" (dict_from_file). -/
  | minMax : String → PyErr
  /-- SyntaxError/NameError from `eval` on a degenerate numeric token. -/
  | evalFail : String → PyErr
  /-- ValueError "Unexpected range variable {key}" (split_order_info). -/
  | unexpectedRange : String → PyErr
  /-- UnboundLocalError: `zero`/`one` read before any assignment. -/
  | unboundLocal : String → PyErr
  /-- KeyError from a dict subscript. -/
  | keyError : String → PyErr
  /-- TypeError from subscripting / arithmetic on a value of the wrong shape. -/
  | typeError : PyErr
  /-- ValueError from `int()` on a non-integer token (create_grism_specwcs). -/
  | intParse : String → PyErr
deriving DecidableEq

/-- Python dict assignment `d[k] = v`: overwrite in place, else append. -/
def dInsert {α : Type} : List (String × α) → String → α → List (String × α)
  | [], k, v => [(k, v)]
  | (k', v') :: rest, k, v =>
    if k' = k then (k, v) :: rest else (k', v') :: dInsert rest k v

/-- Python dict read `d[k]` (as an option; the call sites turn `none` into
KeyError). -/
def dLookup {α : Type} : List (String × α) → String → Option α
  | [], _ => none
  | (k', v') :: rest, k => if k' = k then some v' else dLookup rest k

/-- Python `del d[k]`. -/
def dDelete {α : Type} : List (String × α) → String → List (String × α)
  | [], _ => []
  | (k', v') :: rest, k => if k' = k then rest else (k', v') :: dDelete rest k

/-- Does the first character of the list exist and is it a digit (the
lookahead `(?!\d)` of the split pattern, negated)? -/
def headIsDigit : List Char → Bool
  | [] => false
  | c :: _ => c.isDigit

/-- Left-to-right scan of `re.split('\s+|(?<!\d)[,](?!\d)', ·, maxsplit)`:
a separator is a maximal whitespace run, or a comma neither preceded nor
followed by a digit.  `ms` counts the splits still allowed; once it reaches
0 the rest of the string is the final element verbatim.  `fuel` is an upper
bound on the remaining characters (each step consumes at least one), making
the recursion structural so that it reduces in the kernel. -/
def splitGoF : Nat → Nat → List Char → List Char → Char → List String
  | 0, _, input, acc, _ => [String.mk (acc.reverse ++ input)]
  | _ + 1, _, [], acc, _ => [String.mk acc.reverse]
  | fuel + 1, ms, c :: rest, acc, prev =>
    if ms = 0 then [String.mk (acc.reverse ++ c :: rest)]
    else if pyIsSpace c then
      String.mk acc.reverse :: splitGoF fuel (ms - 1) (rest.dropWhile pyIsSpace) [] ' '
    else if c = ',' && !prev.isDigit && !headIsDigit rest then
      String.mk acc.reverse :: splitGoF fuel (ms - 1) rest [] ','
    else splitGoF fuel ms rest (c :: acc) c

/-- `re.split(token, line.strip(), maxsplit=3)` as used in dict_from_file
(the argument is already stripped by the caller). -/
def pySplit3 (s : String) : List String := splitGoF s.length 3 s.toList [] ' '

/-- Is `pat` a prefix of the second list? -/
def leadsWith : List Char → List Char → Bool
  | [], _ => true
  | _ :: _, [] => false
  | a :: as, b :: bs => a == b && leadsWith as bs

/-- Worker for substring containment. -/
def hasSubGo (pat : List Char) : List Char → Bool
  | [] => pat.isEmpty
  | c :: rest => leadsWith pat (c :: rest) || hasSubGo pat rest

/-- Python substring containment `pat in s`. -/
def hasSub (s pat : String) : Bool := hasSubGo pat.toList s.toList

/-- The final guard of the dict_from_file loop (lines 571-576): keys naming
filter or sensitivity files are dropped unconditionally. -/
def insertKept (content : List (String × CVal)) (key : String) (v : CVal) :
    List (String × CVal) :=
  if hasSub key "FILTER" || hasSub key "SENSITIVITY" then content
  else dInsert content key v

/-- One iteration of the dict_from_file line loop (lines 550-576): skip
blank lines and lines not starting with a letter, split the stripped line
into at most four tokens, coerce values on the two-token and three-token
shapes, and insert through the FILTER/SENSITIVITY guard.  Any other shape
assigns nothing. -/
def processLine (content : List (String × CVal)) (line : String) :
    Except PyErr (List (String × CVal)) :=
  if pyIsBlank line then .ok content
  else if startsWithLetter line then
    match pySplit3 (pyStrip line) with
    | [key, val] =>
      -- `if letters.match(val): value = val` then
      -- `if numbers.fullmatch(val): value = eval(val)`: the numeric
      -- classification overrides the string one when both apply.
      if numbersFullmatch val then
        match pyEvalNum val with
        | some q => .ok (insertKept content key (CVal.num q))
        | none => .error (PyErr.evalFail val)
      else if startsWithLetter val then .ok (insertKept content key (CVal.str val))
      else .ok content
    | [key, v1, v2] =>
      if numbersFullmatch v1 && numbersFullmatch v2 then
        match pyEvalNum v1 with
        | none => .error (PyErr.evalFail v1)
        | some q1 =>
          match pyEvalNum v2 with
          | none => .error (PyErr.evalFail v2)
          | some q2 => .ok (insertKept content key (CVal.pair (CVal.num q1) (CVal.num q2)))
      else .error (PyErr.minMax key)
    | _ => .ok content
  else .ok content

/-- The dict_from_file line loop over the whole file. -/
def dictLinesGo : List (String × CVal) → List String → Except PyErr (List (String × CVal))
  | content, [] => .ok content
  | content, l :: ls =>
    match processLine content l with
    | .error e => .error e
    | .ok c2 => dictLinesGo c2 ls

/-- dict_from_file (lines 516-578), modelled over the list of lines of the
file (reading the file itself is external I/O). -/
def dict_from_file (lines : List String) : Except PyErr (List (String × CVal)) :=
  dictLinesGo [] lines

/-- The regex `^[a-zA-Z]*_(?:[+\-]){0,1}[a-zA-Z0-9]{0,1}_*` (`token` in
split_order_info, applied with re.match).  Everything after the mandatory
underscore is optional, so a key matches exactly when the character
following its maximal leading letter run is an underscore. -/
def tokenMatch (k : String) : Bool :=
  match k.toList.dropWhile Char.isAlpha with
  | '_' :: _ => true
  | _ => false

/-- The regex `^[a-zA-Z]*_[0-1]{1,1}$` (`rangekey` in split_order_info):
a leading letter run, one underscore, then a single character 0 or 1 at the
end of the string. -/
def rangekeyMatch (k : String) : Bool :=
  match k.toList.dropWhile Char.isAlpha with
  | ['_', d] => d = '0' || d = '1'
  | _ => false

/-- ASCII upper-casing, as Python `str.upper()` on these keys. -/
def strUpper (s : String) : String := String.mk (s.toList.map Char.toUpper)

/-- Worker for Python `key.split("_")`: split on every underscore, keeping
empty fields. -/
def splitUnderscoreGo : List Char → List Char → List String
  | acc, [] => [String.mk acc.reverse]
  | acc, c :: rest =>
    if c = '_' then String.mk acc.reverse :: splitUnderscoreGo [] rest
    else splitUnderscoreGo (c :: acc) rest

/-- Python `key.split("_")`. -/
def splitUnderscore (k : String) : List String := splitUnderscoreGo [] k.toList

/-- `key.split("_")[1].upper()`: the beam token of a key that matched
`token` (such a key always contains an underscore, so index 1 exists). -/
def beamOf (k : String) : String :=
  strUpper (((splitUnderscore k).get? 1).getD "")

/-- Worker for Python `str.replace(pat, "")` (remove every non-overlapping
occurrence, scanning left to right).  `fuel` bounds the remaining
characters; each step consumes at least one because `pat` is nonempty at
every call site (it starts with an underscore). -/
def removeAllF (pat : List Char) : Nat → List Char → List Char
  | 0, l => l
  | _ + 1, [] => []
  | fuel + 1, c :: rest =>
    if leadsWith pat (c :: rest) then removeAllF pat fuel (rest.drop (pat.length - 1))
    else c :: removeAllF pat fuel rest

/-- `key.replace("_{}".format(b), "")`: strip every occurrence of the
beam token (with its leading underscore) from the key. -/
def stripBeam (k : String) : String :=
  String.mk (removeAllF ('_' :: (beamOf k).toList) k.toList.length k.toList)

/-- First loop of split_order_info (lines 472-476): collect the beams in
first-seen order. -/
def collectBeams : List String → List (String × CVal) → List String
  | acc, [] => acc
  | acc, (k, _) :: rest =>
    if tokenMatch k then
      let b := beamOf k
      collectBeams (if acc.contains b then acc else acc ++ [b]) rest
    else collectBeams acc rest

/-- `rdict[b][newkey] = v` for a beam `b` already present in `rdict`
(it always is: the beams were prefetched with the same test). -/
def rdInsert (rd : List (String × List (String × CVal))) (b key : String) (v : CVal) :
    List (String × List (String × CVal)) :=
  match rd with
  | [] => []
  | (b', d) :: rest =>
    if b' = b then (b', dInsert d key v) :: rest else (b', d) :: rdInsert rest b key v

/-- Second loop of split_order_info (lines 481-485): distribute every key
matching `token` to its beam, with the beam token stripped from the key. -/
def fillBeams (rd : List (String × List (String × CVal))) :
    List (String × CVal) → List (String × List (String × CVal))
  | [] => rd
  | (k, v) :: rest =>
    fillBeams (if tokenMatch k then rdInsert rd (beamOf k) (stripBeam k) v else rd) rest

/-- The function-local variables `zero` and `one` of split_order_info.
They are assigned only inside the range-merging loops and persist across
roots and beams; reading one that was never assigned raises
UnboundLocalError in Python. -/
structure FoldSt where
  zero : Option CVal
  one : Option CVal
deriving DecidableEq

/-- `mk[-1]`: the last character of a key. -/
def lastChar (s : String) : Option Char := s.toList.getLast?

/-- The inner `for mk in mlist` loop (lines 499-506): dispatch on
`eval(mk[-1])`.  A trailing '0' assigns `zero`, a trailing '1' assigns
`one`, any other trailing digit raises the "Unexpected range variable"
ValueError, and a trailing non-digit would make `eval` itself raise
(NameError); an absent key raises KeyError. -/
def procM (d : List (String × CVal)) : FoldSt → List String → Except PyErr FoldSt
  | st, [] => .ok st
  | st, mk :: rest =>
    match lastChar mk with
    | none => .error PyErr.typeError
    | some c =>
      if c = '0' then
        match dLookup d mk with
        | none => .error (PyErr.keyError mk)
        | some v => procM d { st with zero := some v } rest
      else if c = '1' then
        match dLookup d mk with
        | none => .error (PyErr.keyError mk)
        | some v => procM d { st with one := some v } rest
      else if c.isDigit then .error (PyErr.unexpectedRange mk)
      else .error (PyErr.evalFail (String.mk [c]))

/-- `k.split("_")[0]`: the root text of a range key. -/
def rootOf (k : String) : String := ((splitUnderscore k).headD "")

/-- The `for k in rkeys` loop of split_order_info (lines 495-507): group
range keys by substring containment of the root, and for each new root read
`(zero, one)` after the inner loop — reading a variable that has never been
assigned in this call raises UnboundLocalError (`zero` is read first). -/
def procRoots (d : List (String × CVal)) (rkeys : List String) :
    FoldSt → List (String × CVal) → List String →
    Except PyErr (FoldSt × List (String × CVal))
  | st, odict, [] => .ok (st, odict)
  | st, odict, k :: rest =>
    match rkeys.filter (fun m => hasSub m (rootOf k)) with
    | [] => .error PyErr.typeError
    | m0 :: ms =>
      if (dLookup odict (rootOf m0)).isSome then procRoots d rkeys st odict rest
      else
        match procM d st (m0 :: ms) with
        | .error e => .error e
        | .ok st2 =>
          match st2.zero with
          | none => .error (PyErr.unboundLocal "zero")
          | some z =>
            match st2.one with
            | none => .error (PyErr.unboundLocal "one")
            | some o =>
              procRoots d rkeys st2 (dInsert odict (rootOf m0) (CVal.pair z o)) rest

/-- The body of the `for b, d in rdict.items()` loop (lines 488-511):
select the range keys of the beam, merge them root by root, then update the
beam dict with the merged pairs and delete the original range keys. -/
def procBeam (st : FoldSt) (d : List (String × CVal)) :
    Except PyErr (FoldSt × List (String × CVal)) :=
  match procRoots d ((d.map Prod.fst).filter rangekeyMatch) st []
      ((d.map Prod.fst).filter rangekeyMatch) with
  | .error e => .error e
  | .ok (st2, odict) =>
    .ok (st2, ((d.map Prod.fst).filter rangekeyMatch).foldl (fun dd k => dDelete dd k)
      (odict.foldl (fun dd kv => dInsert dd kv.1 kv.2) d))

/-- Range merging over all beams in order, threading the function-local
`zero`/`one` state from one beam to the next. -/
def foldBeams : FoldSt → List (String × List (String × CVal)) →
    Except PyErr (List (String × List (String × CVal)))
  | _, [] => .ok []
  | st, (b, d) :: rest =>
    match procBeam st d with
    | .error e => .error e
    | .ok (st2, d2) =>
      match foldBeams st2 rest with
      | .error e => .error e
      | .ok rs => .ok ((b, d2) :: rs)

/-- split_order_info (lines 441-513): partition the flat dictionary by beam
token, strip the beam token from each key, then merge `_0`/`_1` range pairs
per beam.  (The isinstance guard of line 462 is enforced by the type.) -/
def split_order_info (keydict : List (String × CVal)) :
    Except PyErr (List (String × List (String × CVal))) :=
  let beams := collectBeams [] keydict
  let rd := fillBeams (beams.map (fun b => (b, ([] : List (String × CVal))))) keydict
  foldBeams ⟨none, none⟩ rd

/-- astropy Polynomial1D of degree 1, reduced to its two coefficients. -/
structure Polynomial1D where
  c0 : ℚ
  c1 : ℚ
deriving DecidableEq

/-- Evaluation of a degree-1 polynomial model: `c0 + c1 * t`. -/
def Polynomial1D.eval (p : Polynomial1D) (t : ℚ) : ℚ := p.c0 + p.c1 * t

/-- The forward dispersion model of create_grism_specwcs
(`Polynomial1D(1, c0=a0, c1=a1)`, lines 209, 215, 226). -/
def mkDispModel (a0 a1 : ℚ) : Polynomial1D := ⟨a0, a1⟩

/-- The inverse dispersion model of create_grism_specwcs (lines 204-207,
217-220, 228-231): `Polynomial1D(1, c0=-a0/a1, c1=1/a1)` when the slope is
nonzero, and the identically-zero `Polynomial1D(1, c0=0, c1=0)` when the
slope is zero. -/
def mkInvModel (a0 a1 : ℚ) : Polynomial1D :=
  if a1 = 0 then ⟨0, 0⟩ else ⟨-a0 / a1, 1 / a1⟩

/-- `beamdict[order][key][0]`, `...[1]`: read a coefficient pair from a beam
dict.  A missing key raises KeyError; a value that is not a pair of numbers
makes the subscripting / model construction raise (TypeError). -/
def getPair (d : List (String × CVal)) (key : String) : Except PyErr (ℚ × ℚ) :=
  match dLookup d key with
  | none => .error (PyErr.keyError key)
  | some (CVal.pair (CVal.num a) (CVal.num b)) => .ok (a, b)
  | some _ => .error PyErr.typeError

/-- The six per-order model lists built by the `for order in orders` loop of
create_grism_specwcs (lines 194-232), in source order: DISPL then DISPX then
DISPY per order, orders processed in beam-dict order. -/
structure ModelLists where
  displ : List Polynomial1D
  dispx : List Polynomial1D
  dispy : List Polynomial1D
  invdispl : List Polynomial1D
  invdispx : List Polynomial1D
  invdispy : List Polynomial1D
deriving DecidableEq

/-- The `for order in orders` loop of create_grism_specwcs (lines 194-232). -/
def buildOrderModels : List (String × List (String × CVal)) → Except PyErr ModelLists
  | [] => .ok ⟨[], [], [], [], [], []⟩
  | (_, d) :: rest =>
    match getPair d "DISPL" with
    | .error e => .error e
    | .ok (l0, l1) =>
      match getPair d "DISPX" with
      | .error e => .error e
      | .ok (x0, x1) =>
        match getPair d "DISPY" with
        | .error e => .error e
        | .ok (y0, y1) =>
          match buildOrderModels rest with
          | .error e => .error e
          | .ok ms =>
            .ok ⟨mkDispModel l0 l1 :: ms.displ,
                 mkDispModel x0 x1 :: ms.dispx,
                 mkDispModel y0 y1 :: ms.dispy,
                 mkInvModel l0 l1 :: ms.invdispl,
                 mkInvModel x0 x1 :: ms.invdispx,
                 mkInvModel y0 y1 :: ms.invdispy⟩

/-- Python `int(s)` on a string: optional surrounding whitespace, an
optional sign, then a nonempty digit run (beam tokens never contain the
underscore digit separators that int() would additionally accept, since
they come from splitting on underscores). -/
def pyInt (s : String) : Option Int :=
  let l := (pyStrip s).toList
  let (neg, l2) := match l with
    | '+' :: rest => (false, rest)
    | '-' :: rest => (true, rest)
    | _ => (false, l)
  if l2.isEmpty || !(l2.all Char.isDigit) then none
  else some (if neg then -(digitsToNat l2 : Int) else (digitsToNat l2 : Int))

/-- `oo = [int(o) for o in beamdict]` (line 236): convert every beam token
to an integer order, failing with ValueError on the first token `int()`
cannot parse. -/
def ordersToInt : List String → Except PyErr (List Int)
  | [] => .ok []
  | b :: rest =>
    match pyInt b with
    | none => .error (PyErr.intParse b)
    | some i =>
      match ordersToInt rest with
      | .error e => .error e
      | .ok js => .ok (i :: js)

/-- The data create_grism_specwcs hands to the reference-file writer: the
six model lists and the integer order list (metadata stamping and asdf
serialization are external). -/
structure GrismArtifact where
  displ : List Polynomial1D
  dispx : List Polynomial1D
  dispy : List Polynomial1D
  invdispl : List Polynomial1D
  invdispx : List Polynomial1D
  invdispy : List Polynomial1D
  orders : List Int
deriving DecidableEq

/-- The computational core of create_grism_specwcs (lines 147-262), from
the lines of the configuration file to the data written into the output
reference file.  Stages in source order: dict_from_file, split_order_info,
the per-order model loop, then the int() conversion of the beam tokens;
the first error aborts the call and nothing is written.  (Lines 117-145
and 238-263 — filename parsing, metadata, history and serialization — are
external glue with no bearing on the claims; the temp loop of lines
155-165 is a no-op because every `temp[b]` is created empty.) -/
def create_grism_specwcs (lines : List String) : Except PyErr GrismArtifact :=
  match dict_from_file lines with
  | .error e => .error e
  | .ok conf =>
    match split_order_info conf with
    | .error e => .error e
    | .ok beamdict =>
      match buildOrderModels beamdict with
      | .error e => .error e
      | .ok ms =>
        match ordersToInt (beamdict.map Prod.fst) with
        | .error e => .error e
        | .ok oo =>
          .ok ⟨ms.displ, ms.dispx, ms.dispy, ms.invdispl, ms.invdispx, ms.invdispy, oo⟩

/-- Lexicographic comparison of strings by code point, as Python `<` on
strings (used through `sorted`). -/
def charListLe : List Char → List Char → Bool
  | [], _ => true
  | _ :: _, [] => false
  | a :: as, b :: bs =>
    if a = b then charListLe as bs else decide (a.toNat < b.toNat)

/-- Insert into a list sorted by `le`. -/
def insertSorted {α : Type} (le : α → α → Bool) (a : α) : List α → List α
  | [] => [a]
  | b :: rest => if le a b then a :: b :: rest else b :: insertSorted le a rest

/-- Sort by insertion. -/
def sortBool {α : Type} (le : α → α → Bool) (l : List α) : List α :=
  l.foldr (insertSorted le) []

/-- Remove duplicates, keeping first occurrences. -/
def uniqAux {α : Type} [BEq α] (seen : List α) : List α → List α
  | [] => []
  | a :: rest =>
    if seen.contains a then uniqAux seen rest else a :: uniqAux (a :: seen) rest

/-- Python `sorted(set(l))`: the distinct elements in ascending order. -/
def sortedSet {α : Type} [BEq α] (le : α → α → Bool) (l : List α) : List α :=
  sortBool le (uniqAux [] l)

/-- One row of a wavelengthrange table:
(order, filter name, wavelength min, wavelength max). -/
abbrev WRow : Type := Int × String × ℚ × ℚ

/-- The built-in wide-field (WFSS) wavelength-range table of
create_wfss_wavelengthrange (lines 382-406). -/
def wfssWavelengthrangeDefault : List WRow :=
  [(1, "F250M", 2.500411072, 4.800260833),
   (1, "F277W", 2.500411072, 3.807062006),
   (1, "F300M", 2.684896869, 4.025318456),
   (1, "F322W2", 2.5011293930000003, 4.215842089),
   (1, "F335M", 3.01459734, 4.260432726),
   (1, "F356W", 3.001085025, 4.302320901),
   (1, "F360M", 3.178096344, 4.00099629),
   (1, "F410M", 3.6267051809999997, 4.5644598),
   (1, "F430M", 4.04828939, 4.511761774),
   (1, "F444W", 3.696969216, 4.899565197),
   (1, "F460M", 3.103778615, 4.881999188),
   (1, "F480M", 4.5158154679999996, 4.899565197),
   (2, "F250M", 2.500411072, 2.667345336),
   (2, "F277W", 2.500411072, 3.2642254050000004),
   (2, "F300M", 2.6659796289999997, 3.2997071729999994),
   (2, "F322W2", 2.5011293930000003, 4.136119434),
   (2, "F335M", 2.54572003, 3.6780519760000003),
   (2, "F356W", 2.529505253, 4.133416971),
   (2, "F360M", 2.557881113, 4.83740855),
   (2, "F410M", 2.5186954019999996, 4.759037127),
   (2, "F430M", 2.5362614100000003, 4.541488865),
   (2, "F444W", 2.5011293930000003, 4.899565197),
   (2, "F460M", 2.575447122, 4.883350419),
   (2, "F480M", 2.549773725, 4.899565197)]

/-- The data create_wfss_wavelengthrange hands to the writer. -/
structure WRArtifact where
  wavelengthrange : List WRow
  extract_orders : List (String × List Int)
  order : List Int
  waverange_selector : List String
deriving DecidableEq

/-- The computational core of create_wfss_wavelengthrange (lines 347-438):
take the override table and override extract_orders if given, else the
built-in defaults; derive the sorted distinct orders and filter names; when
no extract_orders override was supplied, map every filter to the full order
list.  (Metadata and serialization are external glue.) -/
def create_wfss_wavelengthrange (wr : Option (List WRow))
    (eo : Option (List (String × List Int))) : WRArtifact :=
  let wavelengthrange := wr.getD wfssWavelengthrangeDefault
  let orders := sortedSet (fun a b => decide (a ≤ b)) (wavelengthrange.map (fun x => x.1))
  let filters := sortedSet (fun a b => charListLe a.toList b.toList)
    (wavelengthrange.map (fun x => x.2.1))
  let extract := eo.getD (filters.map (fun f => (f, orders)))
  ⟨wavelengthrange, extract, orders, filters⟩

/-! ### Claims about the per-beam dispersion models (C4) -/

/-- Claim C4: for every coefficient pair (c0, c1), the forward model built
by create_grism_specwcs is f(t) = c0 + c1*t; when c1 ≠ 0 the inverse model
is g(v) = -c0/c1 + v/c1 and the inverse composed with the forward is the
identity; when c1 = 0 the inverse model is identically zero.  (Python
floats are modelled as exact rationals.) -/
theorem dispersion_models_forward_inverse (c0 c1 : ℚ) :
    (∀ t, (mkDispModel c0 c1).eval t = c0 + c1 * t) ∧
    (c1 ≠ 0 → mkInvModel c0 c1 = ⟨-c0 / c1, 1 / c1⟩ ∧
      ∀ t, (mkInvModel c0 c1).eval ((mkDispModel c0 c1).eval t) = t) ∧
    (c1 = 0 → ∀ v, (mkInvModel c0 c1).eval v = 0) := by
  refine ⟨fun t => rfl, fun h => ⟨if_neg h, fun t => ?_⟩, fun h v => ?_⟩
  · simp only [mkInvModel, mkDispModel, Polynomial1D.eval, if_neg h]
    field_simp
    ring
  · simp [mkInvModel, mkDispModel, Polynomial1D.eval, h]

/-- Claim C4, witness: with (c0, c1) = (0, 2) the forward model sends 1 to
2 and the inverse model sends 2 back to 1; with (c0, c1) = (5, 0) the
inverse model sends 37 to 0. -/
theorem dispersion_models_forward_inverse_witness :
    (mkDispModel 0 2).eval 1 = 2 ∧ (mkInvModel 0 2).eval 2 = 1 ∧
      (mkInvModel 5 0).eval 37 = 0 := by
  obtain ⟨hf, hinv, -⟩ := dispersion_models_forward_inverse (0 : ℚ) 2
  obtain ⟨-, -, hz⟩ := dispersion_models_forward_inverse (5 : ℚ) 0
  obtain ⟨-, hcomp⟩ := hinv (by norm_num)
  have hf1 : (mkDispModel 0 2).eval 1 = 2 := by rw [hf]; norm_num
  refine ⟨hf1, ?_, hz rfl 37⟩
  have h := hcomp 1
  rw [hf1] at h
  exact h

/-! ### Claims about split_order_info on concrete inputs (C1, C5) -/

/-- Claim C1, counterexample: with the single key WX_A_0 (so that beam A
has a range root with only the `_0` suffix present), split_order_info does
not silently drop the root — it raises UnboundLocalError for `one`, so no
beam mapping is produced at all. -/
theorem split_order_info_incomplete_pair_cex :
    split_order_info [("WX_A_0", CVal.num 1)] =
      Except.error (PyErr.unboundLocal "one") := rfl

/-- Claim C1, amended: a range root with exactly one of its two suffixed
keys present is not reliably "silently dropped with no error" — the
outcome depends on the surrounding keys, in three demonstrated ways.
(1) In the minimal instance (only WX_A_0), split_order_info raises
UnboundLocalError reading the never-assigned `one`.  (2) After an earlier
complete pair, the incomplete root is merged with that pair's stale value
(WX becomes (z, y) where y belongs to root WA).  (3) The claim's silent
drop does occur when substring grouping diverts the root: alongside a
merged ZWX pair, the lone WX_0 selects mlist[0] = ZWX_0, whose root ZWX
is already merged, so the WX merge is skipped and WX_0 deleted — beam A
comes back as exactly {ZWX: (a, b)} with no error and no WX key. -/
theorem split_order_info_incomplete_pair_behaviors (v x y z a b c : CVal) :
    split_order_info [("WX_A_0", v)] = Except.error (PyErr.unboundLocal "one") ∧
    split_order_info [("WA_A_0", x), ("WA_A_1", y), ("WX_A_0", z)] =
      Except.ok [("A", [("WA", CVal.pair x y), ("WX", CVal.pair z y)])] ∧
    split_order_info [("ZWX_A_0", a), ("ZWX_A_1", b), ("WX_A_0", c)] =
      Except.ok [("A", [("ZWX", CVal.pair a b)])] :=
  ⟨rfl, rfl, rfl⟩

/-- Claim C5, counterexample: the merged value of a root is collected from
every range key that contains the root text as a substring, so in a mapping
containing WX_A_0: 1.0, WX_A_1: 2.0 together with ZWX_A_0: 9.9 and
ZWX_A_1: 8.8 (whose names contain "WX"), beam A binds WX to (9.9, 8.8),
not to (1.0, 2.0). -/
theorem split_order_info_merge_substring_cex :
    split_order_info [("WX_A_0", CVal.num 1), ("WX_A_1", CVal.num 2),
        ("ZWX_A_0", CVal.num (99/10)), ("ZWX_A_1", CVal.num (44/5))] =
      Except.ok [("A",
        [("WX", CVal.pair (CVal.num (99/10)) (CVal.num (44/5))),
         ("ZWX", CVal.pair (CVal.num (99/10)) (CVal.num (44/5)))])] := by
  with_unfolding_all rfl

/-- Claim C5, amended: for the input mapping consisting exactly of
WX_A_0: 1.0 and WX_A_1: 2.0, split_order_info returns a beam-A sub-mapping
that is exactly {WX: (1.0, 2.0)} — it contains the merged pair and neither
suffixed key.  (In larger mappings another range key containing "WX" as a
substring can supply the merged values instead, as the counterexample
shows.) -/
theorem split_order_info_merges_exact_pair :
    split_order_info [("WX_A_0", CVal.num 1), ("WX_A_1", CVal.num 2)] =
      Except.ok [("A", [("WX", CVal.pair (CVal.num 1) (CVal.num 2))])] := rfl

/-! ### Claims about create_grism_specwcs on concrete inputs (C3) -/

/-- Claim C3, counterexample: for the minimal configuration that defines
one beam A through the six keys DISPL_A_0/1, DISPX_A_0/1, DISPY_A_0/1 with
numeric values, create_grism_specwcs does not succeed: after all six
models are built, `int("A")` raises ValueError, so no output artifact is
written. -/
theorem create_grism_specwcs_beam_A_cex :
    create_grism_specwcs ["DISPL_A_0 1.0", "DISPL_A_1 1.0", "DISPX_A_0 1.0",
        "DISPX_A_1 1.0", "DISPY_A_0 1.0", "DISPY_A_1 1.0"] =
      Except.error (PyErr.intParse "A") := by
  with_unfolding_all rfl

/-- Claim C3, amended: for a minimal configuration defining exactly one
beam via an integer-parseable beam token (+1) through the six keys
DISPL_+1_0/1, DISPX_+1_0/1, DISPY_+1_0/1 with numeric values,
create_grism_specwcs succeeds and the output artifact has order list [1]
(exactly one element) and each of the six mapping collections (displ,
dispx, dispy, invdispl, invdispx, invdispy) of length 1. -/
theorem create_grism_specwcs_minimal_plus1_beam :
    create_grism_specwcs ["DISPL_+1_0 2.0", "DISPL_+1_1 0.5", "DISPX_+1_0 0.0",
        "DISPX_+1_1 1.0", "DISPY_+1_0 3.0", "DISPY_+1_1 0.0"] =
      Except.ok { displ := [⟨2, 1/2⟩], dispx := [⟨0, 1⟩], dispy := [⟨3, 0⟩],
                  invdispl := [⟨-4, 2⟩], invdispx := [⟨0, 1⟩], invdispy := [⟨0, 0⟩],
                  orders := [1] } := by
  with_unfolding_all rfl

/-! ### Claim about the default WFSS wavelengthrange table (C8) -/

/-- Claim C8: with no wavelengthrange override and no extract_orders
override, the built-in wide-field table yields the distinct sorted order
set [1, 2] and the distinct sorted filter set of the 12 filter names, and
the default extraction-order assignment maps each of those 12 filters to
the full order set [1, 2]. -/
theorem wfss_wavelengthrange_defaults :
    (create_wfss_wavelengthrange none none).order = [1, 2] ∧
    (create_wfss_wavelengthrange none none).waverange_selector =
      ["F250M", "F277W", "F300M", "F322W2", "F335M", "F356W",
       "F360M", "F410M", "F430M", "F444W", "F460M", "F480M"] ∧
    (create_wfss_wavelengthrange none none).waverange_selector.length = 12 ∧
    (create_wfss_wavelengthrange none none).extract_orders =
      (create_wfss_wavelengthrange none none).waverange_selector.map
        (fun f => (f, [1, 2])) := by
  refine ⟨?_, ?_, ?_, ?_⟩ <;> with_unfolding_all rfl

/-! ### Claim C2: the "Unexpected range variable" branch is unreachable -/

/-- A key accepted by the range-key regex decomposes as a letter run
followed by an underscore and a final digit 0 or 1. -/
theorem rangekey_shape {k : String} (h : rangekeyMatch k = true) :
    k.toList.dropWhile Char.isAlpha = ['_', '0'] ∨
      k.toList.dropWhile Char.isAlpha = ['_', '1'] := by
  unfold rangekeyMatch at h
  split at h
  case _ d heq =>
    rcases Bool.or_eq_true_iff.mp h with h0 | h1
    · left; rw [heq, decide_eq_true_eq.mp h0]
    · right; rw [heq, decide_eq_true_eq.mp h1]
  case _ => simp at h

/-- If the non-letter tail of a list is exactly `['_', d]`, its last
element is `d`. -/
theorem last_of_dropWhile {l : List Char} {d : Char}
    (h : l.dropWhile Char.isAlpha = ['_', d]) : l.getLast? = some d := by
  have hsplit : l = l.takeWhile Char.isAlpha ++ ['_', d] := by
    rw [← h, List.takeWhile_append_dropWhile]
  rw [hsplit,
    show l.takeWhile Char.isAlpha ++ ['_', d] =
      (l.takeWhile Char.isAlpha ++ ['_']) ++ [d] by simp]
  exact List.getLast?_concat _

/-- A key accepted by the range-key regex ends in '0' or '1'. -/
theorem rangekey_last {k : String} (h : rangekeyMatch k = true) :
    lastChar k = some '0' ∨ lastChar k = some '1' := by
  rcases rangekey_shape h with h0 | h1
  · exact Or.inl (last_of_dropWhile h0)
  · exact Or.inr (last_of_dropWhile h1)

/-- The inner mlist loop never raises the "Unexpected range variable"
error when every key in the list is a range key. -/
theorem procM_no_unexpected (d : List (String × CVal)) :
    ∀ (mlist : List String), (∀ m ∈ mlist, rangekeyMatch m = true) →
    ∀ (st : FoldSt) (k : String),
      procM d st mlist ≠ Except.error (PyErr.unexpectedRange k) := by
  intro mlist
  induction mlist with
  | nil => intro _ st k; simp [procM]
  | cons mk rest ih =>
    intro hall st k
    have hrest : ∀ m ∈ rest, rangekeyMatch m = true :=
      fun m hmm => hall m (by simp [hmm])
    rcases rangekey_last (hall mk (by simp)) with h0 | h1
    · unfold procM
      rw [h0]
      simp only
      cases dLookup d mk with
      | none => simp
      | some v => simpa using ih hrest _ k
    · unfold procM
      rw [h1]
      simp only
      cases dLookup d mk with
      | none => simp
      | some v => simpa using ih hrest _ k

/-- The per-root loop never raises the "Unexpected range variable" error
when every selected range key really is a range key. -/
theorem procRoots_no_unexpected (d : List (String × CVal)) (rkeys : List String)
    (hall : ∀ m ∈ rkeys, rangekeyMatch m = true) (k : String) :
    ∀ (rem : List String) (st : FoldSt) (odict : List (String × CVal)),
      procRoots d rkeys st odict rem ≠ Except.error (PyErr.unexpectedRange k) := by
  intro rem
  induction rem with
  | nil => intro st odict; simp [procRoots]
  | cons kk rest ih =>
    intro st odict
    unfold procRoots
    split
    · simp
    case _ m0 ms hm =>
      have hmlist : ∀ m ∈ m0 :: ms, rangekeyMatch m = true := by
        rw [← hm]
        exact fun m hmm => hall m (List.mem_of_mem_filter hmm)
      split
      · exact ih st odict
      · split
        case _ e heq =>
          intro hc
          injection hc with hc2
          rw [hc2] at heq
          exact absurd heq (procM_no_unexpected d _ hmlist st k)
        case _ st2 heq =>
          split
          · simp
          · split
            · simp
            · exact ih st2 _

/-- The per-beam body never raises the "Unexpected range variable" error. -/
theorem procBeam_no_unexpected (st : FoldSt) (d : List (String × CVal)) (k : String) :
    procBeam st d ≠ Except.error (PyErr.unexpectedRange k) := by
  unfold procBeam
  have hall : ∀ m ∈ (d.map Prod.fst).filter rangekeyMatch, rangekeyMatch m = true :=
    fun m hmm => List.of_mem_filter hmm
  split
  case _ e heq =>
    intro hc
    injection hc with hc2
    rw [hc2] at heq
    exact absurd heq (procRoots_no_unexpected d _ hall k _ st [])
  case _ => simp

/-- The beam loop never raises the "Unexpected range variable" error. -/
theorem foldBeams_no_unexpected :
    ∀ (rd : List (String × List (String × CVal))) (st : FoldSt) (k : String),
      foldBeams st rd ≠ Except.error (PyErr.unexpectedRange k) := by
  intro rd
  induction rd with
  | nil => intro st k; simp [foldBeams]
  | cons bd rest ih =>
    intro st k
    unfold foldBeams
    split
    case _ e heq =>
      intro hc
      injection hc with hc2
      rw [hc2] at heq
      exact absurd heq (procBeam_no_unexpected st bd.2 k)
    case _ st2 d2 heq =>
      split
      case _ e heq2 =>
        intro hc
        injection hc with hc2
        rw [hc2] at heq2
        exact absurd heq2 (ih st2 k)
      case _ => simp

/-- split_order_info never raises the "Unexpected range variable" error:
the keys considered by the merging loops are pre-filtered by the range-key
regex, which only accepts trailing digits 0 and 1, so the `else` branch of
lines 504-506 is dead code. -/
theorem split_order_info_no_unexpected (keydict : List (String × CVal)) (k : String) :
    split_order_info keydict ≠ Except.error (PyErr.unexpectedRange k) := by
  unfold split_order_info
  exact foldBeams_no_unexpected _ _ k

/-- Claim C2, counterexample: a key whose trailing digit is 7 does not
raise the "Unexpected range variable" error — split_order_info succeeds
and beam A simply keeps the stripped key WX_7 unmerged (WX_7 fails the
range-key regex, which only accepts trailing 0 or 1). -/
theorem split_order_info_non01_suffix_cex :
    split_order_info [("WX_A_7", CVal.num 1)] =
      Except.ok [("A", [("WX_7", CVal.num 1)])] := rfl

/-- Claim C2, amended: a key whose stripped form has a trailing digit
other than 0 or 1 (e.g. WX_A_7) is simply not classified as a range key:
it is retained verbatim in the beam mapping, and the "Unexpected range
variable" error is unreachable — split_order_info raises it for no input
whatsoever. -/
theorem split_order_info_non01_suffix_retained :
    (∀ v : CVal, split_order_info [("WX_A_7", v)] =
      Except.ok [("A", [("WX_7", v)])]) ∧
    (∀ (keydict : List (String × CVal)) (k : String),
      split_order_info keydict ≠ Except.error (PyErr.unexpectedRange k)) :=
  ⟨fun _ => rfl, fun keydict k => split_order_info_no_unexpected keydict k⟩

/-! ### Claims about dict_from_file line handling (C6, C7, C10) -/

/-- An ASCII letter is not whitespace. -/
theorem alpha_not_space {c : Char} (h : c.isAlpha = true) : pyIsSpace c = false := by
  cases hspc : pyIsSpace c
  · rfl
  · exfalso
    unfold pyIsSpace at hspc
    simp only [Bool.or_eq_true, decide_eq_true_eq] at hspc
    rcases hspc with (((((rfl | rfl) | rfl) | rfl) | rfl) | rfl) <;>
      exact absurd h (by decide)

/-- A line starting with a letter is not blank. -/
theorem not_blank_of_letter {s : String} (h : startsWithLetter s = true) :
    pyIsBlank s = false := by
  unfold startsWithLetter at h
  unfold pyIsBlank
  cases hl : s.toList with
  | nil => rw [hl] at h; simp at h
  | cons c t =>
    rw [hl] at h
    have hca : c.isAlpha = true := h
    simp [List.all_cons, alpha_not_space hca]

/-- Membership after a Python dict assignment: the element is the new
binding or was already present. -/
theorem mem_dInsert {α : Type} {content : List (String × α)} {k : String} {v : α}
    {x : String × α} (hx : x ∈ dInsert content k v) : x = (k, v) ∨ x ∈ content := by
  induction content with
  | nil => simpa [dInsert] using hx
  | cons kv rest ih =>
    obtain ⟨k', v'⟩ := kv
    unfold dInsert at hx
    by_cases h : k' = k
    · rw [if_pos h] at hx
      rcases List.mem_cons.mp hx with h1 | h2
      · exact Or.inl h1
      · exact Or.inr (List.mem_cons_of_mem _ h2)
    · rw [if_neg h] at hx
      rcases List.mem_cons.mp hx with h1 | h2
      · exact Or.inr (h1 ▸ List.mem_cons_self _ _)
      · rcases ih h2 with h3 | h4
        · exact Or.inl h3
        · exact Or.inr (List.mem_cons_of_mem _ h4)

/-- No key of the content mentions FILTER or SENSITIVITY. -/
def CleanKeys (content : List (String × CVal)) : Prop :=
  ∀ kv ∈ content, hasSub kv.1 "FILTER" = false ∧ hasSub kv.1 "SENSITIVITY" = false

/-- The guarded insertion of dict_from_file preserves key cleanliness. -/
theorem insertKept_clean {content : List (String × CVal)} {k : String} {v : CVal}
    (hc : CleanKeys content) : CleanKeys (insertKept content k v) := by
  unfold insertKept
  split
  · exact hc
  case _ hguard =>
    have hg : hasSub k "FILTER" = false ∧ hasSub k "SENSITIVITY" = false := by
      revert hguard
      cases hasSub k "FILTER" <;> cases hasSub k "SENSITIVITY" <;> simp
    intro kv hkv
    rcases mem_dInsert hkv with rfl | hmem
    · exact hg
    · exact hc kv hmem

/-- A line step returns the content unchanged, a guarded insertion, or an
error. -/
theorem processLine_shape (content : List (String × CVal)) (line : String) :
    processLine content line = Except.ok content ∨
    (∃ k v, processLine content line = Except.ok (insertKept content k v)) ∨
    (∃ e, processLine content line = Except.error e) := by
  unfold processLine
  split
  · exact Or.inl rfl
  · split
    · split
      · split
        · split
          · exact Or.inr (Or.inl ⟨_, _, rfl⟩)
          · exact Or.inr (Or.inr ⟨_, rfl⟩)
        · split
          · exact Or.inr (Or.inl ⟨_, _, rfl⟩)
          · exact Or.inl rfl
      · split
        · split
          · exact Or.inr (Or.inr ⟨_, rfl⟩)
          · split
            · exact Or.inr (Or.inr ⟨_, rfl⟩)
            · exact Or.inr (Or.inl ⟨_, _, rfl⟩)
        · exact Or.inr (Or.inr ⟨_, rfl⟩)
      · exact Or.inl rfl
    · exact Or.inl rfl

/-- Every successful line step preserves key cleanliness. -/
theorem processLine_clean {content c2 : List (String × CVal)} {line : String}
    (hc : CleanKeys content) (h : processLine content line = Except.ok c2) :
    CleanKeys c2 := by
  rcases processLine_shape content line with hsh | ⟨k, v, hsh⟩ | ⟨e, hsh⟩ <;>
    rw [hsh] at h
  · injection h with h2; subst h2; exact hc
  · injection h with h2; subst h2; exact insertKept_clean hc
  · cases h

/-- The whole-file loop preserves key cleanliness. -/
theorem dictLinesGo_clean : ∀ (lines : List String) (content c2 : List (String × CVal)),
    CleanKeys content → dictLinesGo content lines = Except.ok c2 → CleanKeys c2 := by
  intro lines
  induction lines with
  | nil =>
    intro content c2 hc h
    unfold dictLinesGo at h
    injection h with h2
    subst h2
    exact hc
  | cons l ls ih =>
    intro content c2 hc h
    unfold dictLinesGo at h
    split at h
    · cases h
    case _ cmid heq => exact ih cmid c2 (processLine_clean hc heq) h

/-- Claim C7: whenever ingestion succeeds, every key of the returned
mapping contains neither FILTER nor SENSITIVITY (case-sensitive) — lines
with such keys are dropped regardless of their value tokens. -/
theorem dict_from_file_drops_filter_sensitivity (lines : List String)
    (content : List (String × CVal)) (h : dict_from_file lines = Except.ok content) :
    ∀ kv ∈ content, hasSub kv.1 "FILTER" = false ∧ hasSub kv.1 "SENSITIVITY" = false :=
  dictLinesGo_clean lines [] content (by intro kv hkv; cases hkv) h

/-- Claim C7, witness: on the file ["AFILTER 5", "WB 1"] ingestion returns
exactly {WB: 1} (the AFILTER key was dropped although its value is valid),
and the theorem applies to the sole remaining binding. -/
theorem dict_from_file_drops_filter_sensitivity_witness :
    hasSub "WB" "FILTER" = false ∧ hasSub "WB" "SENSITIVITY" = false :=
  dict_from_file_drops_filter_sensitivity ["AFILTER 5", "WB 1"] [("WB", CVal.num 1)]
    (by with_unfolding_all rfl) ("WB", CVal.num 1) (by simp)

/-- Claim C6, amended: for a three-token line whose key starts with a
letter, the "Min/max values expected" error is raised exactly when at
least one of the two value tokens fails the numeric grammar; when both
pass the grammar and evaluate as numeric literals, the key is bound to the
tuple of the two values provided it contains neither FILTER nor
SENSITIVITY (keys containing those substrings are dropped after
successful parsing — the counterexample). -/
theorem dict_from_file_three_token (content : List (String × CVal)) (line k a b : String)
    (hl : startsWithLetter line = true) (hs : pySplit3 (pyStrip line) = [k, a, b]) :
    (processLine content line = Except.error (PyErr.minMax k) ↔
      ¬(numbersFullmatch a = true ∧ numbersFullmatch b = true)) ∧
    (∀ qa qb : ℚ, numbersFullmatch a = true → numbersFullmatch b = true →
      pyEvalNum a = some qa → pyEvalNum b = some qb →
      hasSub k "FILTER" = false → hasSub k "SENSITIVITY" = false →
      processLine content line = Except.ok (dInsert content k
        (CVal.pair (CVal.num qa) (CVal.num qb)))) := by
  have hb := not_blank_of_letter hl
  unfold processLine
  rw [hb, hl, hs]
  simp only [Bool.false_eq_true, if_false, if_true]
  by_cases hna : numbersFullmatch a = true
  · by_cases hnb : numbersFullmatch b = true
    · rw [if_pos (by rw [hna, hnb]; rfl)]
      constructor
      · cases hqa : pyEvalNum a with
        | none => simp [hna, hnb]
        | some qa =>
          cases hqb : pyEvalNum b with
          | none => simp [hna, hnb]
          | some qb => simp [hna, hnb]
      · intro qa qb _ _ hqa hqb hF hS
        rw [hqa, hqb]
        simp [insertKept, hF, hS]
    · have hnb2 : numbersFullmatch b = false := by simpa using hnb
      rw [if_neg (by simp [hnb2])]
      constructor
      · simp [hnb2]
      · intro qa qb _ hcontra _ _ _ _
        exact absurd hcontra hnb
  · have hna2 : numbersFullmatch a = false := by simpa using hna
    rw [if_neg (by simp [hna2])]
    constructor
    · simp [hna2]
    · intro qa qb hcontra _ _ _ _ _
      exact absurd hcontra hna

/-- Claim C6, witness: on the line "WA 1.0 2.0" (three tokens, numeric
values, clean key), the line step binds WA to the tuple (1.0, 2.0). -/
theorem dict_from_file_three_token_witness :
    processLine [] "WA 1.0 2.0" =
      Except.ok [("WA", CVal.pair (CVal.num 1) (CVal.num 2))] :=
  (dict_from_file_three_token [] "WA 1.0 2.0" "WA" "1.0" "2.0" rfl rfl).2
    1 2 rfl rfl (by with_unfolding_all rfl) (by with_unfolding_all rfl) rfl rfl

/-- Claim C6, counterexample: on the line "AFILTER 1 2" both value tokens
are numeric, yet the key is not bound to a tuple — ingestion succeeds with
an empty mapping because the key contains FILTER, refuting the unqualified
"when both tokens are numeric, the key is bound" part of the claim. -/
theorem dict_from_file_three_token_cex :
    dict_from_file ["AFILTER 1 2"] = Except.ok [] := by
  with_unfolding_all rfl

/-- Claim C10: an input line that starts with a letter but splits into
four tokens (with maxsplit=3, any line of four or more raw tokens yields
exactly four) assigns nothing and raises nothing: the line step returns
the content unchanged, because only the two-token and three-token shapes
assign a value. -/
theorem dict_from_file_four_token_ignored (content : List (String × CVal)) (line : String)
    (hl : startsWithLetter line = true)
    (hs : (pySplit3 (pyStrip line)).length = 4) :
    processLine content line = Except.ok content := by
  unfold processLine
  rw [not_blank_of_letter hl, hl]
  simp only [Bool.false_eq_true, if_false, if_true]
  rcases h1 : pySplit3 (pyStrip line) with - | ⟨t1, - | ⟨t2, - | ⟨t3, - | ⟨t4, - | ⟨t5, r5⟩⟩⟩⟩⟩ <;>
    first
      | rfl
      | (rw [h1] at hs; simp at hs)

/-- Claim C10, witness: the four-token line "A B C D" is silently
ignored. -/
theorem dict_from_file_four_token_ignored_witness :
    processLine [] "A B C D" = Except.ok [] :=
  dict_from_file_four_token_ignored [] "A B C D" rfl rfl

/-! ### Claim C9: non-integer beam tokens abort before any output -/

/-- If some beam token cannot be parsed by int(), the order-conversion
loop cannot succeed. -/
theorem ordersToInt_fails : ∀ (bs : List String), (∃ b ∈ bs, pyInt b = none) →
    ∀ js : List Int, ordersToInt bs ≠ Except.ok js := by
  intro bs
  induction bs with
  | nil => intro hb; simp at hb
  | cons b rest ih =>
    intro hb js
    obtain ⟨b0, hmem, hnone⟩ := hb
    unfold ordersToInt
    rcases List.mem_cons.mp hmem with rfl | hmem2
    · rw [hnone]
      simp
    · cases hp : pyInt b with
      | none => simp
      | some i =>
        cases ho : ordersToInt rest with
        | error e => simp
        | ok js2 => exact absurd ho (ih ⟨b0, hmem2, hnone⟩ js2)

/-- Claim C9: every beam token is converted with int() to build the order
list (after the models are built, before the artifact is written); if any
beam token of the configuration is not integer-parseable, the call cannot
produce an output artifact. -/
theorem create_grism_specwcs_unparseable_beam_no_output (lines : List String)
    (conf : List (String × CVal)) (beamdict : List (String × List (String × CVal)))
    (h1 : dict_from_file lines = Except.ok conf)
    (h2 : split_order_info conf = Except.ok beamdict)
    (hb : ∃ b ∈ beamdict.map Prod.fst, pyInt b = none) :
    ∀ a : GrismArtifact, create_grism_specwcs lines ≠ Except.ok a := by
  intro a
  unfold create_grism_specwcs
  simp only [h1, h2]
  cases hm : buildOrderModels beamdict with
  | error e => simp
  | ok ms =>
    cases ho : ordersToInt (beamdict.map Prod.fst) with
    | error e => simp
    | ok js => exact absurd ho (ordersToInt_fails _ hb js)

/-- Claim C9, witness: a full configuration for beam B (models build
fine), whose beam token "B" is not integer-parseable, produces no output
artifact. -/
theorem create_grism_specwcs_unparseable_beam_no_output_witness :
    create_grism_specwcs ["DISPL_B_0 1.0", "DISPL_B_1 1.0", "DISPX_B_0 1.0",
        "DISPX_B_1 1.0", "DISPY_B_0 1.0", "DISPY_B_1 1.0"] ≠
      Except.ok ⟨[], [], [], [], [], [], []⟩ :=
  create_grism_specwcs_unparseable_beam_no_output
    ["DISPL_B_0 1.0", "DISPL_B_1 1.0", "DISPX_B_0 1.0",
     "DISPX_B_1 1.0", "DISPY_B_0 1.0", "DISPY_B_1 1.0"]
    [("DISPL_B_0", CVal.num 1), ("DISPL_B_1", CVal.num 1), ("DISPX_B_0", CVal.num 1),
     ("DISPX_B_1", CVal.num 1), ("DISPY_B_0", CVal.num 1), ("DISPY_B_1", CVal.num 1)]
    [("B", [("DISPL", CVal.pair (CVal.num 1) (CVal.num 1)),
            ("DISPX", CVal.pair (CVal.num 1) (CVal.num 1)),
            ("DISPY", CVal.pair (CVal.num 1) (CVal.num 1))])]
    (by with_unfolding_all rfl) (by with_unfolding_all rfl)
    ⟨"B", by simp, rfl⟩ ⟨[], [], [], [], [], [], []⟩
